import Mathlib

/-!
Verification of the device file-sync protocol engine of the StopAlert PC
companion (`pc_companion.py`), against its natural-language specification.

Modelling conventions:
* A byte is a `Nat` (values on a real serial link are < 256; none of the
  properties below need that bound, so it is not imposed globally).
* The serial transport is a `List (Option Nat)`: `some b` is a byte that
  arrives, `none` marks the expiry of one read timeout.  `device_read n`
  models pyserial `device.read(n)`: it collects bytes until `n` are
  gathered or a timeout boundary (`none`) is hit, so it can return fewer
  than `n` bytes, exactly like the real transport.
* `exit(1)` / abrupt process termination in the script is modelled by
  result constructors whose names start with `exit`.
* Events written to the device (`W:` command lines, data-block frames,
  the end-of-file byte `0x46`) are collected into explicit event traces so
  that claims about what is or is not sent can be stated.
-/

namespace StopAlert

/-- Model of pyserial `device.read(n)`: take up to `n` bytes from the
stream, stopping early (with a short result) at a timeout boundary. -/
def device_read : Nat → List (Option Nat) → List Nat × List (Option Nat)
  | 0, s => ([], s)
  | _ + 1, [] => ([], [])
  | _ + 1, none :: rest => ([], rest)
  | n + 1, some b :: rest =>
    let next := device_read n rest
    (b :: next.1, next.2)

/-- Model of pyserial `device.read_until(term)`: read bytes until the
terminator byte is seen (included in the result) or a timeout boundary is
hit (partial result without the terminator). -/
def device_read_until (term : Nat) : List (Option Nat) → List Nat × List (Option Nat)
  | [] => ([], [])
  | none :: rest => ([], rest)
  | some b :: rest =>
    if b = term then ([b], rest)
    else
      let next := device_read_until term rest
      (b :: next.1, next.2)

/-- Decode a 4-byte little-endian field, as `struct.unpack` with the
format `<L` does. -/
def le32 : List Nat → Nat
  | [b0, b1, b2, b3] => b0 + b1 * 0x100 + b2 * 0x10000 + b3 * 0x1000000
  | _ => 0

/-- Embedding of `calculate_checksum` from `pc_companion.py` line 558:
`(0x100 - (sum([sum(array) for array in args]) & 0xFF)) & 0xFF`
(`& 0xFF` on a nonnegative int is `% 256`). -/
def calculate_checksum (args : List (List Nat)) : Nat :=
  (0x100 - ((args.map List.sum).sum % 256)) % 256

/-- Checksum verification as done by the code (`calculate_checksum(...) != checksum`
at line 639): recompute over the same ranges and compare. -/
def verify_checksum (args : List (List Nat)) (c : Nat) : Bool :=
  calculate_checksum args == c

/-- Fatal outcomes of the ready-prompt read. -/
inductive FatalError
  | Timeout
  | ProtocolViolation
deriving DecidableEq, Repr

/-- Embedding of `wait_ready` from `pc_companion.py` lines 536-543: read
one byte; zero bytes → timeout `exit(1)`; a byte other than 0x3E (ASCII
greater-than sign) → protocol violation `exit(1)`; otherwise return. -/
def wait_ready (s : List (Option Nat)) : Except FatalError (List (Option Nat)) :=
  match device_read 1 s with
  | ([], _) => .error .Timeout
  | (b :: _, s1) => if b ≠ 0x3E then .error .ProtocolViolation else .ok s1

/-- Embedding of `read_32le` from `pc_companion.py` lines 550-555: read 4 bytes;
fewer than 4 → `exit(1)` (modelled as `none`); otherwise return the
decoded value, the raw bytes, and the rest of the stream. -/
def read_32le (s : List (Option Nat)) : Option (Nat × List Nat × List (Option Nat)) :=
  let dr := device_read 4 s
  if dr.1.length = 4 then some (le32 dr.1, dr.1, dr.2) else none

end StopAlert

namespace StopAlert

/- ### Shared evaluation lemmas -/

/-- Reading `n` bytes when exactly the encoded bytes are available. -/
theorem device_read_somes (l : List Nat) : ∀ rest : List (Option Nat),
    device_read l.length (l.map some ++ rest) = (l, rest) := by
  induction l with
  | nil => intro rest; rfl
  | cons x t ih =>
    intro rest
    simp [device_read, ih rest]

/-- A short read: fewer bytes than requested arrive before a timeout
boundary; the partial data is returned and the boundary consumed. -/
theorem device_read_somes_gap (l : List Nat) : ∀ (n : Nat) (rest : List (Option Nat)),
    l.length < n → device_read n (l.map some ++ none :: rest) = (l, rest) := by
  induction l with
  | nil =>
    intro n rest h
    match n, h with
    | n + 1, _ => rfl
  | cons x t ih =>
    intro n rest h
    match n, h with
    | n + 1, h =>
      have ht : t.length < n := by simpa using h
      simp [device_read, ih n rest ht]

theorem read_32le_cons (b0 b1 b2 b3 : Nat) (s : List (Option Nat)) :
    read_32le (some b0 :: some b1 :: some b2 :: some b3 :: s)
      = some (le32 [b0, b1, b2, b3], [b0, b1, b2, b3], s) := rfl

theorem wait_ready_prompt (s : List (Option Nat)) :
    wait_ready (some 0x3E :: s) = .ok s := rfl

/- ### Claim theorems: checksum and prompt synchronizer -/

/-- Claim C3: for every byte sequence (and every concatenation of byte
ranges), the checksum equals `(0x100 - (sum mod 256)) mod 256`, the byte
sum plus the checksum vanishes mod 256, and recomputing the checksum over
the same ranges and comparing succeeds. -/
theorem C3_checksum (args : List (List Nat)) :
    calculate_checksum args = (0x100 - ((args.map List.sum).sum % 256)) % 256
    ∧ ((args.map List.sum).sum + calculate_checksum args) % 256 = 0
    ∧ calculate_checksum [args.flatten] = calculate_checksum args
    ∧ verify_checksum args (calculate_checksum args) = true := by
  refine ⟨rfl, ?_, ?_, ?_⟩
  · unfold calculate_checksum
    omega
  · unfold calculate_checksum
    simp [List.sum_flatten]
  · simp [verify_checksum]

/-- Claim C7: `wait_ready` reads exactly one byte; zero bytes read is a
fatal timeout, a byte other than 0x3E is a fatal protocol violation, and
exactly the ready prompt 0x3E succeeds (consuming only that byte). -/
theorem C7_wait_ready (b : Nat) (r : List (Option Nat)) :
    wait_ready [] = .error .Timeout
    ∧ wait_ready (none :: r) = .error .Timeout
    ∧ (b ≠ 0x3E → wait_ready (some b :: r) = .error .ProtocolViolation)
    ∧ wait_ready (some 0x3E :: r) = .ok r := by
  refine ⟨rfl, rfl, ?_, rfl⟩
  intro hb
  simp [wait_ready, device_read, hb]

theorem C7_witness :
    wait_ready [some 0x10] = .error .ProtocolViolation :=
  (C7_wait_ready 0x10 []).2.2.1 (by decide)

/- ### Upload model (`ACT_UPLOAD`, `pc_companion.py` lines 647-764) -/

/-- One data block frame as written at lines 735-740: the header byte
0x42, the single length-minus-one byte, the payload, and the checksum
over all three ranges. -/
structure Frame where
  header : Nat
  lenByte : Nat
  payload : List Nat
  checksum : Nat
deriving DecidableEq, Repr

/-- The frame built for a block at lines 735-740. -/
def mkFrame (block : List Nat) : Frame :=
  ⟨0x42, block.length - 1, block,
    calculate_checksum [[0x42], [block.length - 1], block]⟩

/-- Outcome of one block-acknowledgment exchange (lines 742-760). -/
inductive SendResult
  | accepted (off : Nat) (rest : List (Option Nat))
  | exitTimeout
  | exitIncomplete
  | exitWriteFailed (off : Nat)
  | exitUnexpected (b off : Nat)
deriving DecidableEq, Repr

/-- The inner retry loop at lines 734-760: write the frame, read one
status byte (`device.read()`) and a 4-byte little-endian offset
(`read_32le()`); on 0x21 resend the identical frame, on 0x58 `exit(1)`
reporting the offset, on anything other than 0x40 `exit(1)`, on 0x40
accept.  The status/offset reads are inlined as stream patterns: the
first pattern is a full status byte followed by four full bytes; a
leading timeout is the `len(result) == 0` exit, and any other shape is
the short `read_32le` exit.  Returns every frame written. -/
def send_block (block : List Nat) : List (Option Nat) → List Frame × SendResult
  | some r :: some a :: some b :: some c :: some d :: s =>
    if r = 0x21 then
      let next := send_block block s
      (mkFrame block :: next.1, next.2)
    else if r = 0x58 then ([mkFrame block], .exitWriteFailed (le32 [a, b, c, d]))
    else if r ≠ 0x40 then ([mkFrame block], .exitUnexpected r (le32 [a, b, c, d]))
    else ([mkFrame block], .accepted (le32 [a, b, c, d]) s)
  | [] => ([mkFrame block], .exitTimeout)
  | none :: _ => ([mkFrame block], .exitTimeout)
  | _ :: _ => ([mkFrame block], .exitIncomplete)

/-- Events written during one file upload: data-block frames and the
end-of-file byte 0x46 (line 763). -/
inductive UEv
  | frame (f : Frame)
  | eofByte
deriving DecidableEq, Repr

/-- Result of uploading the content of one file (lines 728-764). -/
inductive FileResult
  | completed (rest : List (Option Nat))
  | exitTimeout
  | exitIncomplete
  | exitWriteFailed (off : Nat)
  | exitUnexpected (b off : Nat)
  | exitReadyTimeout
  | exitReadyProto
  | outOfFuel
deriving DecidableEq, Repr

/-- The per-file block loop at lines 728-764: `block = f.read(256)` takes
the next up-to-256 bytes of remaining content (`content.take 256`; it is
empty iff no content remains); an empty block breaks out, writes the
end-of-file byte 0x46 and calls `wait_ready()`; otherwise the block goes
through the retry loop `send_block` and, once accepted, the loop
continues with the remaining content.  `fuel` bounds the number of
blocks (the loop itself terminates since each block consumes content). -/
def upload_content : Nat → List Nat → List (Option Nat) → List UEv × FileResult
  | 0, _, _ => ([], .outOfFuel)
  | fuel + 1, content, s =>
    if content = [] then
      match wait_ready s with
      | .ok s1 => ([UEv.eofByte], .completed s1)
      | .error .Timeout => ([UEv.eofByte], .exitReadyTimeout)
      | .error .ProtocolViolation => ([UEv.eofByte], .exitReadyProto)
    else
      match send_block (content.take 256) s with
      | (frs, .accepted _ s1) =>
        let next := upload_content fuel (content.drop 256) s1
        (frs.map UEv.frame ++ next.1, next.2)
      | (frs, .exitTimeout) => (frs.map UEv.frame, .exitTimeout)
      | (frs, .exitIncomplete) => (frs.map UEv.frame, .exitIncomplete)
      | (frs, .exitWriteFailed off) => (frs.map UEv.frame, .exitWriteFailed off)
      | (frs, .exitUnexpected b off) => (frs.map UEv.frame, .exitUnexpected b off)

/-- The 256-byte chunking of file content, as produced by repeated
`f.read(256)` calls. -/
def chunksOf : Nat → List Nat → List (List Nat)
  | 0, _ => []
  | fuel + 1, content =>
    if content = [] then [] else content.take 256 :: chunksOf fuel (content.drop 256)

/-- A device-response stream that accepts `n` consecutive blocks
(status 0x40 followed by a 4-byte offset each time). -/
def acceptStream : Nat → List (Option Nat)
  | 0 => []
  | n + 1 => some 0x40 :: some 0 :: some 0 :: some 0 :: some 0 :: acceptStream n

/-- Events written during the whole upload phase: `W:<path>` command
lines (line 716), data-block frames, and end-of-file bytes. -/
inductive SEv
  | openCmd (path : List Nat)
  | frame (f : Frame)
  | eofByte
deriving DecidableEq, Repr

/-- Result of the multi-file upload loop (lines 709-764). -/
inductive SessionResult
  | completed (rest : List (Option Nat))
  | exitOpenTimeout
  | exitOpenUnexpected (b : Nat)
  | exitTimeout
  | exitIncomplete
  | exitWriteFailed (off : Nat)
  | exitUnexpected (b off : Nat)
  | exitReadyTimeout
  | exitReadyProto
  | outOfFuel
deriving DecidableEq, Repr

def fileResultToSession : FileResult → SessionResult
  | .completed r => .completed r
  | .exitTimeout => .exitTimeout
  | .exitIncomplete => .exitIncomplete
  | .exitWriteFailed off => .exitWriteFailed off
  | .exitUnexpected b off => .exitUnexpected b off
  | .exitReadyTimeout => .exitReadyTimeout
  | .exitReadyProto => .exitReadyProto
  | .outOfFuel => .outOfFuel

def uevToSev : UEv → SEv
  | .frame f => .frame f
  | .eofByte => .eofByte

/-- The file-tree upload loop at lines 709-764: for each (path, content)
pair, write `W:<path>\n`, read up to 5 status bytes (`device.read(5)`);
zero bytes → `exit(1)`; first byte 0x58 → skip this file and continue;
first byte other than 0x40 → `exit(1)`; otherwise run the block loop and,
if it completes, continue with the next file. -/
def upload_tree (fuel : Nat) :
    List (List Nat × List Nat) → List (Option Nat) → List SEv × SessionResult
  | [], s => ([], .completed s)
  | (path, content) :: files, s =>
    match device_read 5 s with
    | ([], _) => ([.openCmd path], .exitOpenTimeout)
    | (b :: _, s1) =>
      if b = 0x58 then
        let next := upload_tree fuel files s1
        (.openCmd path :: next.1, next.2)
      else if b ≠ 0x40 then ([.openCmd path], .exitOpenUnexpected b)
      else
        match upload_content fuel content s1 with
        | (uevs, .completed s2) =>
          let next := upload_tree fuel files s2
          (.openCmd path :: uevs.map uevToSev ++ next.1, next.2)
        | (uevs, fr) => (.openCmd path :: uevs.map uevToSev, fileResultToSession fr)

/-- Result of the whole `ACT_UPLOAD` phase in reformat mode. -/
inductive PhaseResult
  | uploadPhase (r : SessionResult)
  | exitDecisionTimeout
  | exitDeclined
  | exitDecisionUnexpected (b : Nat)
  | exitReformatTimeout
  | exitReformatFailed
  | exitReformatUnexpected (b : Nat)
  | exitReadyTimeout
  | exitReadyProto
deriving DecidableEq, Repr

/-- The deadline-bounded poll loop at lines 665-669 (and 684-687): keep
calling `device.read()` until a byte arrives or the deadline passes.  In
the stream model each `none` is one timed-out read inside the window; a
stream with no byte at all models expiry of the whole window. -/
def poll_read : List (Option Nat) → Option (Nat × List (Option Nat))
  | [] => none
  | none :: rest => poll_read rest
  | some b :: rest => some (b, rest)

/-- The `ACT_UPLOAD` phase in reformat (default) mode, lines 660-764:
write `Z\n`, poll for the decision byte (none → `exit(1)`; 0x58 →
declined, `success = False`, then `exit(1)` at line 703; other than 0x2E
→ `exit(1)`); if confirmed, poll for the result byte (none → `exit(1)`;
0x58 → `exit(1)`; other than 0x40 → `exit(1)`); then `wait_ready()` and
the file-tree upload loop. -/
def act_upload (fuel : Nat) (files : List (List Nat × List Nat)) (s : List (Option Nat)) :
    List SEv × PhaseResult :=
  match poll_read s with
  | none => ([], .exitDecisionTimeout)
  | some (d, s1) =>
    if d = 0x58 then ([], .exitDeclined)
    else if d ≠ 0x2E then ([], .exitDecisionUnexpected d)
    else
      match poll_read s1 with
      | none => ([], .exitReformatTimeout)
      | some (r, s2) =>
        if r = 0x58 then ([], .exitReformatFailed)
        else if r ≠ 0x40 then ([], .exitReformatUnexpected r)
        else
          match wait_ready s2 with
          | .error .Timeout => ([], .exitReadyTimeout)
          | .error .ProtocolViolation => ([], .exitReadyProto)
          | .ok s3 =>
            let next := upload_tree fuel files s3
            (next.1, .uploadPhase next.2)

/- ### Evaluation lemmas for the upload model -/

theorem send_block_reject (block : List Nat) (o1 o2 o3 o4 : Nat) (s : List (Option Nat)) :
    send_block block (some 0x21 :: some o1 :: some o2 :: some o3 :: some o4 :: s)
      = (mkFrame block :: (send_block block s).1, (send_block block s).2) := by
  simp [send_block]

theorem send_block_accept (block : List Nat) (o1 o2 o3 o4 : Nat) (s : List (Option Nat)) :
    send_block block (some 0x40 :: some o1 :: some o2 :: some o3 :: some o4 :: s)
      = ([mkFrame block], .accepted (le32 [o1, o2, o3, o4]) s) := by
  simp [send_block]

theorem send_block_write_failed (block : List Nat) (o1 o2 o3 o4 : Nat) (s : List (Option Nat)) :
    send_block block (some 0x58 :: some o1 :: some o2 :: some o3 :: some o4 :: s)
      = ([mkFrame block], .exitWriteFailed (le32 [o1, o2, o3, o4])) := by
  simp [send_block]

/-- Uploading against a device that accepts every block sends exactly
the 256-byte chunks of the content, then the end-of-file byte, and
completes. -/
theorem upload_content_accept (fuel : Nat) :
    ∀ (content : List Nat) (r : List (Option Nat)), content.length < fuel →
      upload_content fuel content
          (acceptStream ((content.length + 255) / 256) ++ some 0x3E :: r)
        = ((chunksOf fuel content).map (fun b => UEv.frame (mkFrame b)) ++ [UEv.eofByte],
           .completed r) := by
  induction fuel with
  | zero => intro content r h; omega
  | succ f ih =>
    intro content r h
    by_cases hc : content = []
    · subst hc
      simp [upload_content, chunksOf, acceptStream, wait_ready_prompt]
    · have hlen : 1 ≤ content.length := List.length_pos.mpr hc
      have hdiv : (content.length + 255) / 256
          = ((content.drop 256).length + 255) / 256 + 1 := by
        simp only [List.length_drop]
        omega
      rw [hdiv]
      simp only [acceptStream, List.cons_append]
      rw [upload_content, if_neg hc, send_block_accept]
      have hrec := ih (content.drop 256) r (by simp only [List.length_drop]; omega)
      simp only [List.length_drop] at hrec
      rw [chunksOf, if_neg hc]
      simp [hrec]

theorem chunksOf_nil (fuel : Nat) : chunksOf fuel [] = [] := by
  cases fuel <;> simp [chunksOf]

/-- The number of 256-byte chunks is `ceil(S / 256)`. -/
theorem chunksOf_length (fuel : Nat) : ∀ content : List Nat, content.length < fuel →
    (chunksOf fuel content).length = (content.length + 255) / 256 := by
  induction fuel with
  | zero => intro c h; omega
  | succ f ih =>
    intro c h
    by_cases hc : c = []
    · subst hc; simp [chunksOf]
    · have hlen : 1 ≤ c.length := List.length_pos.mpr hc
      rw [chunksOf, if_neg hc]
      rw [List.length_cons, ih (c.drop 256) (by simp only [List.length_drop]; omega)]
      simp only [List.length_drop]
      omega

/-- The final chunk has length `S mod 256`, or 256 when `S` is a nonzero
multiple of 256. -/
theorem chunksOf_getLast (fuel : Nat) : ∀ (content lastChunk : List Nat),
    content.length < fuel → (chunksOf fuel content).getLast? = some lastChunk →
    lastChunk.length = if content.length % 256 = 0 then 256 else content.length % 256 := by
  induction fuel with
  | zero => intro c l h hl; omega
  | succ f ih =>
    intro c l h hl
    by_cases hc : c = []
    · subst hc; simp [chunksOf] at hl
    · have hlen : 1 ≤ c.length := List.length_pos.mpr hc
      rw [chunksOf, if_neg hc] at hl
      by_cases hd : c.drop 256 = []
      · have hle : c.length ≤ 256 := by
          have := List.drop_eq_nil_iff.mp hd
          omega
        rw [hd, chunksOf_nil] at hl
        simp only [List.getLast?_singleton, Option.some.injEq] at hl
        have hlt : l.length = min 256 c.length := by
          rw [← hl, List.length_take]
        rw [hlt]
        by_cases hm : c.length % 256 = 0
        · simp only [hm, if_pos]
          omega
        · rw [if_neg hm]
          omega
      · have hgt : 256 < c.length := by
          rcases Nat.lt_or_ge 256 c.length with hg | hg
          · exact hg
          · exact absurd (List.drop_eq_nil_iff.mpr hg) hd
        have hne : chunksOf f (c.drop 256) ≠ [] := by
          cases f with
          | zero => omega
          | succ f2 =>
            rw [chunksOf, if_neg hd]
            exact List.cons_ne_nil _ _
        obtain ⟨b, L, hbl⟩ := List.exists_cons_of_ne_nil hne
        rw [hbl, List.getLast?_cons_cons] at hl
        have hrec := ih (c.drop 256) l
          (by simp only [List.length_drop]; omega)
          (by rw [hbl]; exact hl)
        simp only [List.length_drop] at hrec
        have hmod : (c.length - 256) % 256 = c.length % 256 := by omega
        rw [hmod] at hrec
        exact hrec

/- ### Claim theorems: upload block loop and reformat gating -/

/-- Claim C5: a block acknowledgment with status 0x21 causes the
byte-identical frame (same 0x42 header, same length-minus-one byte, same
payload, same checksum) to be resent, without consuming any new file
data: a single injected rejection yields exactly one retransmission, and
the loop then continues with the same file position it would otherwise
have had. -/
theorem C5_retransmit (fuel : Nat) (content : List Nat) (hc : content ≠ [])
    (o1 o2 o3 o4 q1 q2 q3 q4 : Nat) (rest : List (Option Nat)) :
    upload_content (fuel + 1) content
        (some 0x21 :: some o1 :: some o2 :: some o3 :: some o4 ::
         some 0x40 :: some q1 :: some q2 :: some q3 :: some q4 :: rest)
      = (UEv.frame (mkFrame (content.take 256)) :: UEv.frame (mkFrame (content.take 256)) ::
           (upload_content fuel (content.drop 256) rest).1,
         (upload_content fuel (content.drop 256) rest).2) := by
  rw [upload_content, if_neg hc, send_block_reject, send_block_accept]
  simp

theorem C5_witness :
    upload_content 2 [9]
        [some 0x21, some 0, some 0, some 0, some 0,
         some 0x40, some 1, some 0, some 0, some 0, some 0x3E]
      = ([UEv.frame (mkFrame [9]), UEv.frame (mkFrame [9]), UEv.eofByte],
         .completed []) :=
  (C5_retransmit 1 [9] (by decide) 0 0 0 0 1 0 0 0 [some 0x3E]).trans (by decide)

/-- Claim C4: against a device that accepts every block, a file of size
`S` is sent as exactly `ceil(S / 256)` blocks (none when `S = 0`) whose
payloads are the 256-byte chunks of the content, and the payload length
of the final block is `S mod 256`, or 256 when `S` is a nonzero multiple
of 256. -/
theorem C4_blocks (content : List Nat) (r : List (Option Nat)) :
    upload_content (content.length + 1) content
        (acceptStream ((content.length + 255) / 256) ++ some 0x3E :: r)
      = ((chunksOf (content.length + 1) content).map (fun b => UEv.frame (mkFrame b))
          ++ [UEv.eofByte], .completed r)
    ∧ (chunksOf (content.length + 1) content).length = (content.length + 255) / 256
    ∧ (content.length = 0 → chunksOf (content.length + 1) content = [])
    ∧ (∀ lastChunk, (chunksOf (content.length + 1) content).getLast? = some lastChunk →
        lastChunk.length = if content.length % 256 = 0 then 256 else content.length % 256) := by
  refine ⟨upload_content_accept _ content r (by omega),
          chunksOf_length _ content (by omega), ?_, ?_⟩
  · intro h0
    rw [List.eq_nil_of_length_eq_zero h0]
    exact chunksOf_nil _
  · intro lastChunk hl
    exact chunksOf_getLast _ content lastChunk (by omega) hl

theorem C4_witness :
    (chunksOf 2 [7]).getLast? = some [7]
    ∧ [7].length = if (1 : Nat) % 256 = 0 then 256 else 1 % 256 :=
  ⟨by decide, (C4_blocks [7] []).2.2.2 [7] (by decide)⟩

/-- Claim C1 (amended): when a block acknowledgment carries status 0x58
mid-upload, the client does not send the end-of-file byte for that file
and the stalled offset is reported, but the entire session terminates
(`exit(1)`): no further file in the tree is opened. -/
theorem C1_write_failed_aborts (fuel : Nat) (path content : List Nat)
    (files : List (List Nat × List Nat)) (hc : content ≠ [])
    (a1 a2 a3 a4 o1 o2 o3 o4 : Nat) (rest : List (Option Nat)) :
    upload_tree (fuel + 1) ((path, content) :: files)
        (some 0x40 :: some a1 :: some a2 :: some a3 :: some a4 ::
         some 0x58 :: some o1 :: some o2 :: some o3 :: some o4 :: rest)
      = ([.openCmd path, .frame (mkFrame (content.take 256))],
         .exitWriteFailed (le32 [o1, o2, o3, o4])) := by
  rw [upload_tree]
  have h5 : device_read 5
      (some 0x40 :: some a1 :: some a2 :: some a3 :: some a4 ::
       some 0x58 :: some o1 :: some o2 :: some o3 :: some o4 :: rest)
      = ([0x40, a1, a2, a3, a4],
         some 0x58 :: some o1 :: some o2 :: some o3 :: some o4 :: rest) := rfl
  rw [h5]
  have hup : upload_content (fuel + 1) content
      (some 0x58 :: some o1 :: some o2 :: some o3 :: some o4 :: rest)
      = ([UEv.frame (mkFrame (content.take 256))],
         .exitWriteFailed (le32 [o1, o2, o3, o4])) := by
    rw [upload_content, if_neg hc, send_block_write_failed]
    simp
  simp [hup, fileResultToSession, uevToSev]

/-- Claim C1 counterexample: with a two-file tree and a device whose
first block acknowledgment is 0x58, the session ends in the fatal
write-failed exit; the second file is never opened, so the client does
not continue with the next file as the claim states. -/
theorem C1_counterexample :
    upload_tree 1 [([65], [1]), ([66], [2])]
        [some 0x40, some 0, some 0, some 0, some 0,
         some 0x58, some 7, some 0, some 0, some 0]
      = ([SEv.openCmd [65], SEv.frame (mkFrame [1])], .exitWriteFailed 7)
    ∧ SEv.openCmd [66] ∉ [SEv.openCmd [65], SEv.frame (mkFrame [1])]
    ∧ SEv.eofByte ∉ [SEv.openCmd [65], SEv.frame (mkFrame [1])] := by
  decide

theorem C1_witness :
    upload_tree 1 [([65], [1])]
        [some 0x40, some 0, some 0, some 0, some 0,
         some 0x58, some 7, some 0, some 0, some 0]
      = ([SEv.openCmd [65], SEv.frame (mkFrame [1])], .exitWriteFailed 7) :=
  (C1_write_failed_aborts 0 [65] [1] [] (by decide) 0 0 0 0 7 0 0 0 []).trans (by decide)

/-- Claim C8: in reformat mode, a declined decision byte (0x58) or a
decision window that expires with no byte leads to the upload phase
aborting with no `W:` open-for-write command ever issued. -/
theorem C8_declined_no_open (fuel : Nat) (files : List (List Nat × List Nat))
    (s : List (Option Nat))
    (h : poll_read s = none ∨ ∃ t, poll_read s = some (0x58, t)) :
    (act_upload fuel files s).1 = [] ∧ ∀ p, SEv.openCmd p ∉ (act_upload fuel files s).1 := by
  have h1 : (act_upload fuel files s).1 = [] := by
    rcases h with h | ⟨t, h⟩
    · simp [act_upload, h]
    · simp [act_upload, h]
  exact ⟨h1, by simp [h1]⟩

theorem C8_witness :
    (act_upload 1 [([65], [1])] [some 0x58]).1 = [] :=
  (C8_declined_no_open 1 [([65], [1])] [some 0x58] (Or.inr ⟨[], rfl⟩)).1

/- ### Listing model (`ACT_RETRIEVE_FS_LISTING`, lines 578-587) -/

/-- Python dict assignment `fs_listing[path] = size`: update an existing
key in place (insertion order preserved), otherwise append. -/
def dictInsert (d : List (List Nat × Nat)) (k : List Nat) (v : Nat) : List (List Nat × Nat) :=
  if d.any (fun e => e.1 == k) then d.map (fun e => if e.1 = k then (k, v) else e)
  else d ++ [(k, v)]

/-- Result of the listing loop. -/
inductive ListingResult
  | done (entries : List (List Nat × Nat)) (rest : List (Option Nat))
  | exitIncomplete
  | outOfFuel
deriving DecidableEq, Repr

/-- The directory-listing loop of lines 580-586: read a 32-bit size
(short read → `exit(1)`), read the NUL-terminated path
(`device.read_until` with the NUL terminator, then dropping the final
byte, modelled as `dropLast` of the raw read), stop when size is 0xFFFFFFFF and the path is empty, otherwise
store the entry in the dict and loop.  Paths stay as raw byte lists (the
script ASCII-decodes them).  `fuel` bounds the number of entries. -/
def listing_loop : Nat → List (List Nat × Nat) → List (Option Nat) → ListingResult
  | 0, _, _ => .outOfFuel
  | fuel + 1, d, s =>
    match read_32le s with
    | none => .exitIncomplete
    | some (size, _, s1) =>
      let ru := device_read_until 0 s1
      let path := ru.1.dropLast
      if size = 0xFFFFFFFF ∧ path = [] then .done d ru.2
      else listing_loop fuel (dictInsert d path size) ru.2

/-- Claim C2 (amended): the listing loop terminates exactly when an
entry has size 0xFFFFFFFF and an empty path; for every other entry
shape — including a zero-length path with a different size, or the
sentinel size with a non-empty path — the entry is recorded into the
listing dict and the loop simply continues: no protocol violation is
reported. -/
theorem C2_terminator (fuel : Nat) (d : List (List Nat × Nat))
    (s s1 : List (Option Nat)) (size : Nat) (sbytes : List Nat)
    (h1 : read_32le s = some (size, sbytes, s1)) :
    (size = 0xFFFFFFFF ∧ (device_read_until 0 s1).1.dropLast = [] →
      listing_loop (fuel + 1) d s = .done d (device_read_until 0 s1).2)
    ∧ (¬(size = 0xFFFFFFFF ∧ (device_read_until 0 s1).1.dropLast = []) →
      listing_loop (fuel + 1) d s
        = listing_loop fuel (dictInsert d (device_read_until 0 s1).1.dropLast size)
            (device_read_until 0 s1).2) := by
  constructor
  · intro hterm
    rw [listing_loop, h1]
    simp only [if_pos hterm]
  · intro hterm
    rw [listing_loop, h1]
    simp only [if_neg hterm]

/-- Claim C2 counterexample: an entry with a zero-length path and size 0
(not the sentinel size) is recorded as a listing entry and the loop
continues to the real terminator — no protocol violation is reported,
contrary to the claim. -/
theorem C2_counterexample :
    listing_loop 2 []
        [some 0, some 0, some 0, some 0, some 0,
         some 0xFF, some 0xFF, some 0xFF, some 0xFF, some 0]
      = .done [([], 0)] [] := by
  decide

theorem C2_witness :
    listing_loop 1 [] [some 0xFF, some 0xFF, some 0xFF, some 0xFF, some 0]
      = .done [] [] :=
  ((C2_terminator 0 [] [some 0xFF, some 0xFF, some 0xFF, some 0xFF, some 0]
      [some 0] 0xFFFFFFFF [0xFF, 0xFF, 0xFF, 0xFF] (by decide)).1
    (by decide)).trans (by decide)

/- ### Dump model (`ACT_DUMP_FS`, lines 604-645) -/

/-- Events in the per-file dump: opening (and truncating) the
destination file on the PC, and issuing the `R:<path>` command. -/
inductive DEv
  | openDest (p : List Nat)
  | readCmd (p : List Nat)
deriving DecidableEq, Repr

/-- Per-file dump outcomes; `exit`-prefixed constructors model
`exit(1)` / an uncaught exception ending the process. -/
inductive DResult
  | ok
  | notFound
  | cannotOpen
  | shortRead (got expected : Nat)
  | checksumMismatch
  | exitIncompleteSize
  | exitChecksumRead
  | exitReadyTimeout
  | exitReadyProto
deriving DecidableEq, Repr

/-- Outcome of dumping one file: the event trace, what was written into
the destination file (`none` = nothing, so the file created by
opening the destination for writing is left empty), the result, and the remaining
device stream (empty on process exit). -/
structure DumpOut where
  evs : List DEv
  written : Option (List Nat)
  res : DResult
  rest : List (Option Nat)
deriving DecidableEq, Repr

/-- Consume the ready prompt after a per-file branch (each branch of the
dump loop ends in `wait_ready()`; its failure is a process exit). -/
def finish_file (evs : List DEv) (w : Option (List Nat)) (res : DResult)
    (s : List (Option Nat)) : DumpOut :=
  match wait_ready s with
  | .ok s1 => ⟨evs, w, res, s1⟩
  | .error .Timeout => ⟨evs, w, .exitReadyTimeout, []⟩
  | .error .ProtocolViolation => ⟨evs, w, .exitReadyProto, []⟩

/-- One iteration of the dump loop, lines 609-645: the destination file
is opened for writing (created/truncated) first, then `R:<path>` is
written; a 32-bit size is read (short read → `exit(1)`); size 0xFFFFFFFF
→ not found, skip; 0xFFFFFFFE/0xFFFFFFFD → cannot open, skip; otherwise
read `size` content bytes and one checksum byte (`device.read()[0]`
raises on an empty read → process exit); a short content read skips the
file; a checksum mismatch over `size_bytes ++ contents` discards the
content; only on full verification is the content written. -/
def dump_file (p : List Nat) (s : List (Option Nat)) : DumpOut :=
  let evs := [DEv.openDest p, DEv.readCmd p]
  match read_32le s with
  | none => ⟨evs, none, .exitIncompleteSize, []⟩
  | some (size, size_bytes, s1) =>
    if size = 0xFFFFFFFF then finish_file evs none .notFound s1
    else if size = 0xFFFFFFFE ∨ size = 0xFFFFFFFD then finish_file evs none .cannotOpen s1
    else
      let rc := device_read size s1
      match device_read 1 rc.2 with
      | ([], _) => ⟨evs, none, .exitChecksumRead, []⟩
      | (c :: _, s3) =>
        if rc.1.length ≠ size then finish_file evs none (.shortRead rc.1.length size) s3
        else if calculate_checksum [size_bytes, rc.1] ≠ c then
          finish_file evs none .checksumMismatch s3
        else finish_file evs (some rc.1) .ok s3

/-- Whether a per-file dump outcome ends the whole process. -/
def dres_fatal : DResult → Bool
  | .exitIncompleteSize => true
  | .exitChecksumRead => true
  | .exitReadyTimeout => true
  | .exitReadyProto => true
  | _ => false

/-- The dump loop over the listed paths (line 608): per-file outcomes
are accumulated; a fatal outcome stops the loop (process exit), any
other outcome lets the loop continue with the next file. -/
def dump_loop : List (List Nat) → List (Option Nat) → List (List Nat × DumpOut) × Bool
  | [], _ => ([], true)
  | p :: ps, s =>
    let out := dump_file p s
    if dres_fatal out.res then ([(p, out)], false)
    else
      let next := dump_loop ps out.rest
      ((p, out) :: next.1, next.2)

theorem device_read_one (c : Nat) (t : List (Option Nat)) :
    device_read 1 (some c :: t) = ([c], t) := rfl

theorem le32_ffff : le32 [0xFF, 0xFF, 0xFF, 0xFF] = 0xFFFFFFFF := by decide

theorem le32_fffe : le32 [0xFE, 0xFF, 0xFF, 0xFF] = 0xFFFFFFFE := by decide

theorem le32_fffd : le32 [0xFD, 0xFF, 0xFF, 0xFF] = 0xFFFFFFFD := by decide

/- ### Claim theorems: download/dump -/

/-- Claim C6: a download whose advertised size is 0xFFFFFFFF yields
not-found with no content-byte read attempted (only the ready prompt is
consumed after the size); 0xFFFFFFFE or 0xFFFFFFFD yields cannot-open;
otherwise exactly `size` content bytes and one checksum byte are read,
the checksum is verified over the little-endian size bytes followed by
the content, and on mismatch the content is discarded (nothing written)
and the file reported as a checksum failure, while on match the content
is written. -/
theorem C6_download (p : List Nat) (r : List (Option Nat)) (b0 b1 b2 b3 c : Nat)
    (content : List Nat) :
    dump_file p (some 0xFF :: some 0xFF :: some 0xFF :: some 0xFF :: some 0x3E :: r)
      = ⟨[DEv.openDest p, DEv.readCmd p], none, .notFound, r⟩
    ∧ dump_file p (some 0xFE :: some 0xFF :: some 0xFF :: some 0xFF :: some 0x3E :: r)
      = ⟨[DEv.openDest p, DEv.readCmd p], none, .cannotOpen, r⟩
    ∧ dump_file p (some 0xFD :: some 0xFF :: some 0xFF :: some 0xFF :: some 0x3E :: r)
      = ⟨[DEv.openDest p, DEv.readCmd p], none, .cannotOpen, r⟩
    ∧ (le32 [b0, b1, b2, b3] = content.length → content.length < 0xFFFFFFFD →
        (c = calculate_checksum [[b0, b1, b2, b3], content] →
          dump_file p (some b0 :: some b1 :: some b2 :: some b3 ::
              (content.map some ++ some c :: some 0x3E :: r))
            = ⟨[DEv.openDest p, DEv.readCmd p], some content, .ok, r⟩)
        ∧ (c ≠ calculate_checksum [[b0, b1, b2, b3], content] →
          dump_file p (some b0 :: some b1 :: some b2 :: some b3 ::
              (content.map some ++ some c :: some 0x3E :: r))
            = ⟨[DEv.openDest p, DEv.readCmd p], none, .checksumMismatch, r⟩)) := by
  refine ⟨?_, ?_, ?_, ?_⟩
  · simp only [dump_file, read_32le_cons, le32_ffff]
    simp [finish_file, wait_ready_prompt]
  · simp only [dump_file, read_32le_cons, le32_fffe]
    simp [finish_file, wait_ready_prompt]
  · simp only [dump_file, read_32le_cons, le32_fffd]
    simp [finish_file, wait_ready_prompt]
  intro h1 h2
  have hread := device_read_somes content (some c :: some 0x3E :: r)
  constructor
  · intro hcs
    simp only [dump_file, read_32le_cons, h1]
    rw [if_neg (by omega), if_neg (by omega)]
    simp only [hread, device_read_one]
    rw [if_neg (by omega), if_neg (by omega)]
    simp [finish_file, wait_ready_prompt]
  · intro hcs
    simp only [dump_file, read_32le_cons, h1]
    rw [if_neg (by omega), if_neg (by omega)]
    simp only [hread, device_read_one]
    rw [if_neg (by omega), if_pos (by omega)]
    simp [finish_file, wait_ready_prompt]

theorem C6_witness :
    dump_file [65] [some 1, some 0, some 0, some 0, some 3, some 252, some 0x3E]
      = ⟨[DEv.openDest [65], DEv.readCmd [65]], some [3], .ok, []⟩ :=
  ((((C6_download [65] [] 1 0 0 0 252 [3]).2.2.2 (by decide) (by decide)).1
     (by decide)).trans (by decide))

/-- Claim C9: a short content read during a dump (fewer than the
advertised number of bytes before the read timeout, then a checksum
byte) is a per-file error: nothing is written, the ready prompt is
consumed, and the dump loop continues with the next file — the session
does not terminate. -/
theorem C9_short_read (p : List Nat) (ps : List (List Nat)) (b0 b1 b2 b3 c : Nat)
    (got : List Nat) (r : List (Option Nat))
    (hlt : got.length < le32 [b0, b1, b2, b3])
    (hs : le32 [b0, b1, b2, b3] < 0xFFFFFFFD) :
    dump_loop (p :: ps)
        (some b0 :: some b1 :: some b2 :: some b3 ::
         (got.map some ++ none :: some c :: some 0x3E :: r))
      = ((p, ⟨[DEv.openDest p, DEv.readCmd p], none,
              .shortRead got.length (le32 [b0, b1, b2, b3]), r⟩) :: (dump_loop ps r).1,
         (dump_loop ps r).2) := by
  have hf : dump_file p
      (some b0 :: some b1 :: some b2 :: some b3 ::
       (got.map some ++ none :: some c :: some 0x3E :: r))
      = ⟨[DEv.openDest p, DEv.readCmd p], none,
         .shortRead got.length (le32 [b0, b1, b2, b3]), r⟩ := by
    simp only [dump_file, read_32le_cons]
    rw [if_neg (by omega), if_neg (by omega)]
    rw [device_read_somes_gap got (le32 [b0, b1, b2, b3]) (some c :: some 0x3E :: r) hlt]
    simp only [device_read_one]
    rw [if_pos (by omega)]
    simp [finish_file, wait_ready_prompt]
  simp [dump_loop, hf, dres_fatal]

theorem C9_witness :
    dump_loop [[65]] [some 2, some 0, some 0, some 0, some 5, none, some 0, some 0x3E]
      = ([([65], ⟨[DEv.openDest [65], DEv.readCmd [65]], none, .shortRead 1 2, []⟩)], true) :=
  (C9_short_read [65] [] 2 0 0 0 0 [5] [] (by decide) (by decide)).trans (by decide)

/-- Claim C10: the destination file is created (opened and truncated)
before the `R:<path>` command is issued, so every per-file download
failure — not-found, cannot-open, short content read, or checksum
mismatch — leaves nothing written (an empty file remains at the
destination); only the fully successful outcome writes the downloaded
content. -/
theorem C10_empty_on_failure (p : List Nat) (s : List (Option Nat)) :
    (dump_file p s).evs = [DEv.openDest p, DEv.readCmd p]
    ∧ ((dump_file p s).res = .notFound ∨ (dump_file p s).res = .cannotOpen
        ∨ (∃ g e, (dump_file p s).res = .shortRead g e)
        ∨ (dump_file p s).res = .checksumMismatch
      → (dump_file p s).written = none)
    ∧ ((dump_file p s).res = .ok → ∃ cs, (dump_file p s).written = some cs) := by
  simp only [dump_file, finish_file]
  refine ⟨?_, ?_, ?_⟩ <;> (repeat' split) <;> simp_all

theorem C10_witness :
    (dump_file [65] [some 0xFF, some 0xFF, some 0xFF, some 0xFF, some 0x3E]).written
      = none :=
  (C10_empty_on_failure [65]
    [some 0xFF, some 0xFF, some 0xFF, some 0xFF, some 0x3E]).2.1 (Or.inl (by decide))

end StopAlert
